import Mathlib

/-!
Verification of the grading engine of the mini online judge (`src/grader.py`).

The embedding is shallow: the child-side grading pipeline (`_ensure_safe`,
`SAFE_BUILTINS`, `_execute`) and the parent-side supervisor
(`run_in_subprocess`) are translated into executable Lean definitions.
Parts of the behaviour that depend on the host interpreter or the OS are
made explicit inputs:

* parsing a source string into a syntax tree (`ast.parse`) becomes the
  `Submission.ast` field, holding either a parse error or the tree;
* running the submitted top-level code (`exec(code, ns, ns)`) becomes the
  `Submission.execNs` field, holding either the raised exception or the
  resulting namespace (a partial map from names to callables);
* wall-clock time (`time.time()` differences) becomes an `elapsed` input;
* scheduling and OS kills become the `ChildFate` input of the supervisor.
-/

/-- JSON-representable runtime values, as fixed by the data model: numbers
(modelled as integers), strings, booleans, sequences, mappings and null.
Mappings are kept as association lists in a canonical key order with no
duplicate keys, so Python's key-insensitive dict equality coincides with
the entrywise comparison below. -/
inductive Value where
  | null : Value
  | bool : Bool → Value
  | int : Int → Value
  | str : String → Value
  | list : List Value → Value
  | dict : List (String × Value) → Value

mutual

/-- Embeds Python `==` on the JSON-like values above, including the numeric
coercion `True == 1` / `False == 0`. -/
def pyEq : Value → Value → Bool
  | Value.null, Value.null => true
  | Value.bool a, Value.bool b => a == b
  | Value.bool a, Value.int n => (if a then (1 : Int) else 0) == n
  | Value.int n, Value.bool b => n == (if b then (1 : Int) else 0)
  | Value.int a, Value.int b => a == b
  | Value.str a, Value.str b => a == b
  | Value.list xs, Value.list ys => pyEqList xs ys
  | Value.dict xs, Value.dict ys => pyEqFields xs ys
  | _, _ => false

/-- Elementwise Python `==` on lists. -/
def pyEqList : List Value → List Value → Bool
  | [], [] => true
  | x :: xs, y :: ys => pyEq x y && pyEqList xs ys
  | _, _ => false

/-- Entrywise Python `==` on canonically ordered mappings. -/
def pyEqFields : List (String × Value) → List (String × Value) → Bool
  | [], [] => true
  | (k, v) :: xs, (l, w) :: ys => k == l && pyEq v w && pyEqFields xs ys
  | _, _ => false

end

/-- The submission's syntax tree, as seen by the static vettor
(`_ensure_safe`, `src/grader.py` lines 66-82).  The vettor distinguishes
exactly four node shapes — `ast.Import`, `ast.ImportFrom`, `ast.Attribute`
(carrying the accessed object and the attribute string) and `ast.Name`
(carrying the identifier) — every other Python AST node is represented by
`node` with its kind string and child list, matching what `ast.walk`
exposes of it. -/
inductive Ast where
  | importStmt : Ast
  | importFrom : Ast
  | attribute : Ast → String → Ast
  | name : String → Ast
  | node : String → List Ast → Ast

/-- Embeds `attr.startswith("__")` from line 78 of `src/grader.py`. -/
def startswithDunder (s : String) : Bool :=
  match s.data with
  | '_' :: '_' :: _ => true
  | _ => false

/-- The three rejection reasons of the AST walk in `_ensure_safe`
(`src/grader.py` lines 73-82). -/
inductive Violation where
  | importBan : Violation
  | dunderBan : Violation
  | nameBan : String → Violation

/-- The `SecurityError` message raised for each rejection reason, exactly
as in `src/grader.py` lines 75, 79 and 82. -/
def violationMsg : Violation → String
  | Violation.importBan => "Import statements are not allowed"
  | Violation.dunderBan => "Access to dunder attributes is not allowed"
  | Violation.nameBan id => "Usage of " ++ "'" ++ id ++ "'" ++ " is not allowed"

mutual

/-- The node checks of the `ast.walk` loop of `_ensure_safe`
(`src/grader.py` lines 73-82): the first violating node encountered
determines the raised `SecurityError`.  (`ast.walk` enumerates nodes
breadth-first; here the tree is scanned in preorder, which can only change
which of several violations is reported first, never whether one is.) -/
def firstViolation : Ast → Option Violation
  | Ast.importStmt => some Violation.importBan
  | Ast.importFrom => some Violation.importBan
  | Ast.attribute v attr =>
      if startswithDunder attr then some Violation.dunderBan else firstViolation v
  | Ast.name id =>
      if id = "__import__" ∨ id = "eval" ∨ id = "exec" ∨ id = "open"
      then some (Violation.nameBan id) else none
  | Ast.node _ cs => firstViolationList cs

/-- Scan of a child list, first violation wins. -/
def firstViolationList : List Ast → Option Violation
  | [] => none
  | c :: cs =>
      match firstViolation c with
      | some v => some v
      | none => firstViolationList cs

end

/-- A parse failure of `ast.parse`, with the data `_ensure_safe` reports:
the parser's message and line number (`src/grader.py` lines 68-71). -/
structure SyntaxErr where
  msg : String
  lineno : Nat

/-- Embeds `_ensure_safe` (`src/grader.py` lines 66-82).  `ast.parse` is
not re-implemented: the function takes the parse result.  A parse failure
or a violating node yields the raised `SecurityError`'s message in
`Except.error`; otherwise the vetting succeeds. -/
def _ensure_safe (parsed : Except SyntaxErr Ast) : Except String Unit :=
  match parsed with
  | Except.error e =>
      Except.error ("SyntaxError: " ++ e.msg ++ " (line " ++ toString e.lineno ++ ")")
  | Except.ok tree =>
      match firstViolation tree with
      | some v => Except.error (violationMsg v)
      | none => Except.ok ()

/-- Sub-node relation on syntax trees: `SubNode s t` holds when `s` occurs
somewhere in `t`, mirroring membership in `ast.walk(tree)`. -/
inductive SubNode : Ast → Ast → Prop where
  | refl (t : Ast) : SubNode t t
  | attrChild {s v : Ast} {a : String} : SubNode s v → SubNode s (Ast.attribute v a)
  | nodeChild {s c : Ast} {kind : String} {cs : List Ast} :
      c ∈ cs → SubNode s c → SubNode s (Ast.node kind cs)

/-- The keys of the `SAFE_BUILTINS` dict (`src/grader.py` lines 13-59), in
source order.  Each key is bound to the host builtin of the same name; only
the names matter to the claims, so the table is modelled by its key list. -/
def SAFE_BUILTINS : List String :=
  ["abs", "all", "any", "bool", "bytes", "callable", "chr", "complex",
   "dict", "divmod", "enumerate", "filter", "float", "format", "frozenset",
   "getattr", "hasattr", "hash", "hex", "int", "isinstance", "issubclass",
   "iter", "len", "list", "map", "max", "min", "next", "object", "oct",
   "ord", "pow", "print", "range", "repr", "reversed", "round", "set",
   "slice", "sorted", "str", "sum", "tuple", "zip"]

/-- The builtin table the execution namespace is created with:
`ns = {"__builtins__": SAFE_BUILTINS}` (`src/grader.py` line 108) makes
exactly the `SAFE_BUILTINS` names the builtins visible to the submission. -/
def executionBuiltins : List String := SAFE_BUILTINS

/-- Modelled from the spec: the CPython builtins, among those namable here,
whose job is resolving attributes by name at runtime ("reaching runtime
internals" in the spec's words) — `getattr` and `hasattr`. -/
def attributeResolvingBuiltins : List String := ["getattr", "hasattr"]

/-- Modelled from the spec: the CPython builtins that perform output
(I/O in the spec's words) — `print` writes to standard output. -/
def outputPerformingBuiltins : List String := ["print"]

/-- A Python exception as the grader observes it: the class name
`type(e).__name__` and the message `str(e)`. -/
structure PyExn where
  kind : String
  msg : String

/-- A callable bound in the submission's namespace: applied to positional
and keyword arguments it either returns a value or raises.  A non-callable
binding is represented by a function that always raises `TypeError`, which
is exactly how calling it behaves. -/
def PyFun : Type := List Value → List (String × Value) → Except PyExn Value

/-- One test case of a problem (`src/problems.py`): positional arguments,
keyword arguments, and the expected value — a list is read by the grader
as a set of acceptable values.  An absent `expected` key is `t.get`-read
as `None`, i.e. `Value.null`. -/
structure TestCase where
  args : List Value
  kwargs : List (String × Value)
  expected : Value

/-- A problem record, with the fields the grader reads (`function_name`,
`tests`) plus the descriptive fields of the bank (`src/problems.py`). -/
structure Problem where
  id : String
  title : String
  description : String
  function_name : String
  function_signature : String
  template_code : String
  tests : List TestCase

/-- A submission's two interpreter-dependent aspects, made explicit:
the parse result of its source (`ast.parse(code)`), and the outcome of
executing its top level in the safe namespace (`exec(code, ns, ns)`,
`src/grader.py` line 109) — either a raised exception or the resulting
namespace, mapping each defined name to its (callable view of a) value. -/
structure Submission where
  ast : Except SyntaxErr Ast
  execNs : Except PyExn (String → Option PyFun)

/-- One per-test record built by the loop at `src/grader.py` lines
117-137: the item dict with `index`, `args`, `kwargs`, `expected` and the
`ok`/`got`/`error` fields filled in by the try/except. -/
structure TestOutcome where
  index : Nat
  args : List Value
  kwargs : List (String × Value)
  expected : Value
  ok : Bool
  got : Value
  error : Option String

/-- The `summary` dict of an ok result (`src/grader.py` lines 144-147). -/
structure Summary where
  total : Nat
  passed : Nat

/-- A message written to the result channel: the union of the three dict
shapes of `src/grader.py` (lines 140-148, 150, 152, 173, 178).  Fields a
given dict does not carry are `none`. -/
structure GradeMsg where
  status : String
  tests : Option (List TestOutcome)
  elapsed : Option ℚ
  summary : Option Summary
  error : Option String

/-- The error-shaped dict `{"status": "error", "error": s}`. -/
def errMsg (s : String) : GradeMsg := ⟨"error", none, none, none, some s⟩

/-- The ok-shaped dict of `src/grader.py` lines 140-148. -/
def okMsg (ts : List TestOutcome) (elapsed : ℚ) (sm : Summary) : GradeMsg :=
  ⟨"ok", some ts, some elapsed, some sm, none⟩

/-- The timeout dict `{"status": "tle", "error": "Time Limit Exceeded"}`
(`src/grader.py` line 173). -/
def tleMsg : GradeMsg := ⟨"tle", none, none, none, some "Time Limit Exceeded"⟩

/-- An execution of submitted code inside the child: the one `exec` of the
top level, or one call of the submitted function for a test index. -/
inductive Event where
  | execTopLevel : Event
  | callFn : Nat → Event

/-- What a run of `_execute` does: the submitted-code executions it
performs, and the messages it puts on the result channel, in order. -/
structure ExecRun where
  events : List Event
  puts : List GradeMsg

/-- The scoring of one returned value against `expected`
(`src/grader.py` lines 129-133): a list is a set of acceptable values,
anything else is compared directly. -/
def scoreOk (got expected : Value) : Bool :=
  match expected with
  | Value.list es => es.any fun e => pyEq got e
  | _ => pyEq got expected

/-- The body of the per-test loop (`src/grader.py` lines 121-137): build
the item dict, call the function under the per-test try, and fill in
`ok`/`got`/`error`. -/
def runTest (fn : PyFun) (idx : Nat) (t : TestCase) : TestOutcome :=
  match fn t.args t.kwargs with
  | Except.ok got =>
      ⟨idx, t.args, t.kwargs, t.expected, scoreOk got t.expected, got, none⟩
  | Except.error e =>
      ⟨idx, t.args, t.kwargs, t.expected, false, Value.null,
        some ("ERROR: " ++ e.kind ++ ": " ++ e.msg)⟩

/-- The per-test loop `for idx, t in enumerate(problem["tests"], 1)`
(`src/grader.py` line 117), accumulating one outcome per test. -/
def runTests (fn : PyFun) : Nat → List TestCase → List TestOutcome
  | _, [] => []
  | idx, t :: ts => runTest fn idx t :: runTests fn (idx + 1) ts

/-- The function-call events of the per-test loop: one call attempt per
declared test, in order. -/
def callEvents : Nat → List TestCase → List Event
  | _, [] => []
  | idx, _ :: ts => Event.callFn idx :: callEvents (idx + 1) ts

/-- Embeds `_execute` (`src/grader.py` lines 101-152).  `_limit_resources`
only sets OS limits (best effort, never raises out); the wall-clock reading
`time.time()` is the explicit `elapsed` input (already carrying the 4-digit
rounding of line 143).  The outer try/except turns a vetting rejection or a
missing function (both `SecurityError`) into `{"status": "error", "error":
str(se)}` and any other fault into the `"ERROR: kind: msg"` form, so every
path puts exactly one message. -/
def _execute (problem : Problem) (sub : Submission) (mem_limit_mb : Nat)
    (elapsed : ℚ) : ExecRun :=
  match _ensure_safe sub.ast with
  | Except.error msg => ⟨[], [errMsg msg]⟩
  | Except.ok _ =>
      match sub.execNs with
      | Except.error e =>
          ⟨[Event.execTopLevel], [errMsg ("ERROR: " ++ e.kind ++ ": " ++ e.msg)]⟩
      | Except.ok ns =>
          match ns problem.function_name with
          | none =>
              ⟨[Event.execTopLevel],
               [errMsg ("Function " ++ "'" ++ problem.function_name ++ "'" ++ " is not defined")]⟩
          | some fn =>
              let tests := runTests fn 1 problem.tests
              ⟨Event.execTopLevel :: callEvents 1 problem.tests,
               [okMsg tests elapsed ⟨tests.length, tests.countP fun t => t.ok⟩]⟩

/-- The parent-side process operations of `run_in_subprocess`
(`src/grader.py` lines 163-179), recorded in order: `proc.join(timeout)`,
`proc.terminate()`, and `q.get_nowait()`. -/
inductive SupAction where
  | join : ℚ → SupAction
  | terminate : SupAction
  | getNowait : SupAction

/-- What the OS and scheduler did to the child process — the environment
input of the supervisor.  `completed elapsed` means the child ran
`_execute` to the end before the deadline (its channel holds exactly the
messages `_execute` put); `osKilled` means the child died before writing
(e.g. killed for exceeding the memory limit, channel empty); `timedOut
chan` means the child was still alive when `proc.join(time_limit)`
returned, with whatever (possibly half-written) channel content `chan`. -/
inductive ChildFate where
  | completed : ℚ → ChildFate
  | osKilled : ChildFate
  | timedOut : List GradeMsg → ChildFate

/-- Embeds `run_in_subprocess` (`src/grader.py` lines 155-179): start the
child, `proc.join(timeout=time_limit)`; if the child is still alive,
`terminate()`, `join(0.1)` and return the tle dict without touching the
queue; otherwise `q.get_nowait()` — the head of the channel if the child
wrote, else the generic no-result error.  Returns the result together with
the supervisor's process actions. -/
def run_in_subprocess (problem : Problem) (sub : Submission)
    (time_limit : ℚ) (mem_limit_mb : Nat) (fate : ChildFate) :
    GradeMsg × List SupAction :=
  match fate with
  | ChildFate.timedOut _ =>
      (tleMsg, [SupAction.join time_limit, SupAction.terminate, SupAction.join (1/10)])
  | ChildFate.osKilled =>
      (errMsg "No result returned", [SupAction.join time_limit, SupAction.getNowait])
  | ChildFate.completed elapsed =>
      match (_execute problem sub mem_limit_mb elapsed).puts.head? with
      | some r => (r, [SupAction.join time_limit, SupAction.getNowait])
      | none => (errMsg "No result returned", [SupAction.join time_limit, SupAction.getNowait])

/-- The caller-side defaults of `run_in_subprocess`:
`time_limit: float = 2.0` and `mem_limit_mb: int = 128`. -/
def defaultTimeLimit : ℚ := 2

/-- Default memory limit in MB (`src/grader.py` line 155). -/
def defaultMemLimitMb : Nat := 128

/-- Stated from the claim's words, to compare with the source's `scoreOk`:
the returned value matches `expected` when it equals it, or, when
`expected` is a set of acceptable values (a list), when it equals at least
one element of that list. -/
def specMatches (got expected : Value) : Prop :=
  match expected with
  | Value.list es => ∃ e ∈ es, pyEq got e = true
  | _ => pyEq got expected = true

/-- Stated from the claim's words: a security-related message, i.e. the
message of one of the `SecurityError`s the static vettor raises. -/
def securityMessage (s : String) : Prop :=
  s = "Import statements are not allowed" ∨
  s = "Access to dunder attributes is not allowed" ∨
  (∃ id, s = "Usage of " ++ "'" ++ id ++ "'" ++ " is not allowed") ∨
  (∃ m l, s = "SyntaxError: " ++ m ++ " (line " ++ l ++ ")")

/-- A concrete problem for evaluating the theorems: the `fibonacci` problem
of `src/problems.py` restricted to its first two tests. -/
def wProblem : Problem :=
  ⟨"fibonacci", "Fibonacci N (Easy)", "", "fib", "def fib(n):", "",
   [⟨[Value.int 0], [], Value.int 0⟩, ⟨[Value.int 1], [], Value.int 1⟩]⟩

/-- A concrete correct `fib` for the two tests above (identity on 0 and 1). -/
def wFn : PyFun := fun args _ =>
  match args with
  | [v] => Except.ok v
  | _ => Except.error ⟨"TypeError", "fib() takes 1 positional argument"⟩

/-- A namespace binding exactly `fib` to `wFn`. -/
def wNs : String → Option PyFun := fun s => if s = "fib" then some wFn else none

/-- A concrete vetting-clean parse tree shaped like `def fib(n): return n`. -/
def wCleanAst : Ast :=
  Ast.node "Module" [Ast.node "FunctionDef" [Ast.node "Return" [Ast.name "n"]]]

/-- A concrete well-behaved submission for the happy-path claims. -/
def wSubOk : Submission := ⟨Except.ok wCleanAst, Except.ok wNs⟩

/-- A concrete submission whose tree contains an import statement. -/
def wSubImport : Submission :=
  ⟨Except.ok (Ast.node "Module" [Ast.importStmt, Ast.node "FunctionDef" []]),
   Except.ok wNs⟩

/-- A concrete submission whose tree accesses `o.__class__`. -/
def wSubDunder : Submission :=
  ⟨Except.ok (Ast.node "Module" [Ast.node "Expr" [Ast.attribute (Ast.name "o") "__class__"]]),
   Except.ok wNs⟩

/-- A concrete `fib` that raises `ValueError: boom` on every call. -/
def wFnRaise : PyFun := fun _ _ => Except.error ⟨"ValueError", "boom"⟩

/-- A namespace binding `fib` to the always-raising function. -/
def wNsRaise : String → Option PyFun := fun s => if s = "fib" then some wFnRaise else none

/-- A concrete submission whose function raises on every test. -/
def wSubRaise : Submission := ⟨Except.ok wCleanAst, Except.ok wNsRaise⟩

/-- The acceptable-alternatives list of the two-sum scenario:
`expected = [[0, 1], [1, 0]]`. -/
def c9alts : List Value :=
  [Value.list [Value.int 0, Value.int 1], Value.list [Value.int 1, Value.int 0]]

/-- A returned value equal to the whole `expected` list (not to any single
alternative). -/
def c9got : Value := Value.list c9alts

/-- The per-test loop yields exactly one outcome per declared test. -/
theorem runTests_length (fn : PyFun) (ts : List TestCase) :
    ∀ k, (runTests fn k ts).length = ts.length := by
  induction ts with
  | nil => intro k; rfl
  | cons t ts ih => intro k; simp [runTests, ih]

/-- The outcome at position `i` of the loop started at index `k` is the
outcome of running test `i` alone with item index `k + i`. -/
theorem runTests_get (fn : PyFun) (ts : List TestCase) :
    ∀ k i (h : i < (runTests fn k ts).length) (h2 : i < ts.length),
      (runTests fn k ts).get ⟨i, h⟩ = runTest fn (k + i) (ts.get ⟨i, h2⟩) := by
  induction ts with
  | nil => intro k i h h2; exact absurd h2 (Nat.not_lt_zero i)
  | cons t ts ih =>
      intro k i h h2
      cases i with
      | zero => simp [runTests]
      | succ j =>
          have hj : j < (runTests fn (k + 1) ts).length := by
            have := h; simpa [runTests] using this
          have hj2 : j < ts.length := Nat.lt_of_succ_lt_succ h2
          have := ih (k + 1) j hj hj2
          simpa [runTests, Nat.add_assoc, Nat.add_comm 1 j] using this

/-- The source's scoring agrees with the claim's phrasing of matching. -/
theorem scoreOk_iff_specMatches (got expected : Value) :
    scoreOk got expected = true ↔ specMatches got expected := by
  cases expected with
  | list es => simp [scoreOk, specMatches, List.any_eq_true]
  | null => simp [scoreOk, specMatches]
  | bool b => simp [scoreOk, specMatches]
  | int n => simp [scoreOk, specMatches]
  | str s => simp [scoreOk, specMatches]
  | dict fs => simp [scoreOk, specMatches]

/-- If some member of a child list has a violation, scanning the list finds
one. -/
theorem firstViolationList_isSome {c : Ast} {cs : List Ast} (hc : c ∈ cs)
    (hsome : (firstViolation c).isSome) : (firstViolationList cs).isSome := by
  induction cs with
  | nil => cases hc
  | cons d ds ih =>
      cases hc with
      | head =>
          cases hv : firstViolation c with
          | none => rw [hv] at hsome; cases hsome
          | some v => simp [firstViolationList, hv]
      | tail _ hmem =>
          cases hv : firstViolation d with
          | none => simp [firstViolationList, hv]; exact ih hmem
          | some v => simp [firstViolationList, hv]

/-- A violating node anywhere in the tree makes the whole scan report a
violation. -/
theorem firstViolation_isSome_of_subNode {s t : Ast} (h : SubNode s t)
    (hs : (firstViolation s).isSome) : (firstViolation t).isSome := by
  induction h with
  | refl => exact hs
  | attrChild hsub ih =>
      rename_i v a
      by_cases hd : startswithDunder a = true
      · simp [firstViolation, hd]
      · simp [firstViolation, hd]; exact ih
  | nodeChild hmem hsub ih =>
      exact firstViolationList_isSome hmem ih

/-- Every message the vettor rejects with is security-related. -/
theorem ensure_safe_error_security {p : Except SyntaxErr Ast} {m : String}
    (h : _ensure_safe p = Except.error m) : securityMessage m := by
  cases p with
  | error e =>
      simp [_ensure_safe] at h
      exact Or.inr (Or.inr (Or.inr ⟨e.msg, toString e.lineno, h.symm⟩))
  | ok tree =>
      cases hv : firstViolation tree with
      | none => simp [_ensure_safe, hv] at h
      | some v =>
          simp [_ensure_safe, hv] at h
          cases v with
          | importBan => exact Or.inl h.symm
          | dunderBan => exact Or.inr (Or.inl h.symm)
          | nameBan id => exact Or.inr (Or.inr (Or.inl ⟨id, h.symm⟩))

/-- Every run of the child puts exactly one message on the channel, with a
terminal child status. -/
theorem execute_puts_singleton (p : Problem) (sub : Submission) (mem : Nat)
    (elapsed : ℚ) :
    ∃ m, (_execute p sub mem elapsed).puts = [m] ∧
      (m.status = "ok" ∨ m.status = "error") := by
  cases hs : _ensure_safe sub.ast with
  | error msg => exact ⟨errMsg msg, by simp [_execute, hs], Or.inr rfl⟩
  | ok u =>
      cases u
      cases he : sub.execNs with
      | error e =>
          exact ⟨errMsg ("ERROR: " ++ e.kind ++ ": " ++ e.msg),
            by simp [_execute, hs, he], Or.inr rfl⟩
      | ok ns =>
          cases hf : ns p.function_name with
          | none =>
              exact ⟨errMsg ("Function " ++ "'" ++ p.function_name ++ "'" ++ " is not defined"),
                by simp [_execute, hs, he, hf], Or.inr rfl⟩
          | some fn =>
              exact ⟨okMsg (runTests fn 1 p.tests) elapsed
                  ⟨(runTests fn 1 p.tests).length,
                   (runTests fn 1 p.tests).countP fun t => t.ok⟩,
                by simp [_execute, hs, he, hf], Or.inl rfl⟩

/-- C2: for every submission whose source contains an import statement
anywhere in its syntax tree, grading returns status error with a
security-related message, and no test case is executed — the child runs no
submitted code at all (no top-level exec, no function call), puts exactly
the vettor's rejection on the channel, and the supervisor hands that error
to the caller. -/
theorem c2_import_rejected (p : Problem) (sub : Submission) (tl : ℚ)
    (mem : Nat) (elapsed : ℚ) (tree : Ast)
    (hast : sub.ast = Except.ok tree)
    (himp : SubNode Ast.importStmt tree ∨ SubNode Ast.importFrom tree) :
    ∃ msg, securityMessage msg ∧
      _ensure_safe sub.ast = Except.error msg ∧
      (_execute p sub mem elapsed).events = [] ∧
      (_execute p sub mem elapsed).puts = [errMsg msg] ∧
      (run_in_subprocess p sub tl mem (ChildFate.completed elapsed)).1 = errMsg msg := by
  have hsome : (firstViolation tree).isSome := by
    cases himp with
    | inl h => exact firstViolation_isSome_of_subNode h rfl
    | inr h => exact firstViolation_isSome_of_subNode h rfl
  cases hv : firstViolation tree with
  | none => rw [hv] at hsome; cases hsome
  | some v =>
      have hsafe : _ensure_safe sub.ast = Except.error (violationMsg v) := by
        simp [_ensure_safe, hast, hv]
      refine ⟨violationMsg v, ensure_safe_error_security hsafe, hsafe, ?_, ?_, ?_⟩
      · simp [_execute, hsafe]
      · simp [_execute, hsafe]
      · simp [run_in_subprocess, _execute, hsafe]

/-- C7: for every submission containing an attribute access whose attribute
name begins with a double underscore, grading rejects with a security error
before any submitted code is executed: no exec, no function call, and the
result delivered to the caller is the vettor's error. -/
theorem c7_dunder_rejected (p : Problem) (sub : Submission) (tl : ℚ)
    (mem : Nat) (elapsed : ℚ) (tree obj : Ast) (attr : String)
    (hast : sub.ast = Except.ok tree)
    (hdunder : startswithDunder attr = true)
    (hocc : SubNode (Ast.attribute obj attr) tree) :
    ∃ msg, securityMessage msg ∧
      _ensure_safe sub.ast = Except.error msg ∧
      (_execute p sub mem elapsed).events = [] ∧
      (_execute p sub mem elapsed).puts = [errMsg msg] ∧
      (run_in_subprocess p sub tl mem (ChildFate.completed elapsed)).1 = errMsg msg := by
  have hsome : (firstViolation tree).isSome := by
    refine firstViolation_isSome_of_subNode hocc ?_
    simp [firstViolation, hdunder]
  cases hv : firstViolation tree with
  | none => rw [hv] at hsome; cases hsome
  | some v =>
      have hsafe : _ensure_safe sub.ast = Except.error (violationMsg v) := by
        simp [_ensure_safe, hast, hv]
      refine ⟨violationMsg v, ensure_safe_error_security hsafe, hsafe, ?_, ?_, ?_⟩
      · simp [_execute, hsafe]
      · simp [_execute, hsafe]
      · simp [run_in_subprocess, _execute, hsafe]

/-- C3: whenever the child is still alive after the wall-clock time_limit
(default 2.0 s), the supervisor terminates it, briefly awaits cleanup
(`join(0.1)` right after `terminate`), and returns the fixed tle result —
for every possible channel content, which it never reads (`getNowait` is
not among its actions). -/
theorem c3_timeout_tle (p : Problem) (sub : Submission) (tl : ℚ) (mem : Nat)
    (chan : List GradeMsg) :
    run_in_subprocess p sub tl mem (ChildFate.timedOut chan)
        = (tleMsg, [SupAction.join tl, SupAction.terminate, SupAction.join (1/10)]) ∧
      tleMsg.status = "tle" ∧ tleMsg.error = some "Time Limit Exceeded" ∧
      SupAction.getNowait ∉ [SupAction.join tl, SupAction.terminate, SupAction.join (1/10)] := by
  refine ⟨rfl, rfl, rfl, ?_⟩
  intro hmem
  simp [List.mem_cons] at hmem

/-- C8: whenever the child exits within the deadline but the channel is
empty (it died without writing, e.g. killed by the OS for exceeding the
memory limit), the supervisor returns status error with the generic
no-result-returned message after a non-blocking read. -/
theorem c8_empty_channel (p : Problem) (sub : Submission) (tl : ℚ) (mem : Nat) :
    run_in_subprocess p sub tl mem ChildFate.osKilled
        = (errMsg "No result returned", [SupAction.join tl, SupAction.getNowait]) ∧
      (errMsg "No result returned").status = "error" := ⟨rfl, rfl⟩

/-- C4: every grading request yields exactly one result with a terminal
status among ok, error and tle, whatever the child's fate; and the child
itself writes exactly one message to the channel (so at most once), always
with status ok or error — the caller never sees a raw crash. -/
theorem c4_terminal_status (p : Problem) (sub : Submission) (tl : ℚ)
    (mem : Nat) (fate : ChildFate) :
    ((run_in_subprocess p sub tl mem fate).1.status = "ok" ∨
     (run_in_subprocess p sub tl mem fate).1.status = "error" ∨
     (run_in_subprocess p sub tl mem fate).1.status = "tle") ∧
    ∀ elapsed : ℚ, ∃ m, (_execute p sub mem elapsed).puts = [m] ∧
      (m.status = "ok" ∨ m.status = "error") := by
  refine ⟨?_, fun elapsed => execute_puts_singleton p sub mem elapsed⟩
  cases fate with
  | timedOut chan => exact Or.inr (Or.inr rfl)
  | osKilled => exact Or.inr (Or.inl rfl)
  | completed elapsed =>
      obtain ⟨m, hm, hstatus⟩ := execute_puts_singleton p sub mem elapsed
      have : (run_in_subprocess p sub tl mem (ChildFate.completed elapsed)).1 = m := by
        simp [run_in_subprocess, hm]
      rw [this]
      cases hstatus with
      | inl h => exact Or.inl h
      | inr h => exact Or.inr (Or.inl h)

/-- C1: for every submission that defines the problem's function and whose
grading reaches the test loop (vetting passed, top level executed, function
found), the child reports status ok with exactly one outcome per declared
test case, in declared order with 1-based consecutive indices, each scored
true iff the returned value equals the expected value — or some member of
it when the expected value is a list of acceptable values — and the summary
is the number of test cases and the number of passing outcomes. -/
theorem c1_ok_grading (p : Problem) (sub : Submission) (mem : Nat)
    (elapsed : ℚ) (ns : String → Option PyFun) (fn : PyFun)
    (hsafe : _ensure_safe sub.ast = Except.ok ())
    (hexec : sub.execNs = Except.ok ns)
    (hfn : ns p.function_name = some fn) :
    ∃ outs : List TestOutcome,
      (_execute p sub mem elapsed).puts
          = [okMsg outs elapsed ⟨p.tests.length, outs.countP fun o => o.ok⟩] ∧
      outs.length = p.tests.length ∧
      (∀ i (h : i < outs.length) (h2 : i < p.tests.length),
        (outs.get ⟨i, h⟩).index = i + 1 ∧
        (outs.get ⟨i, h⟩).args = (p.tests.get ⟨i, h2⟩).args ∧
        (outs.get ⟨i, h⟩).kwargs = (p.tests.get ⟨i, h2⟩).kwargs ∧
        (outs.get ⟨i, h⟩).expected = (p.tests.get ⟨i, h2⟩).expected) ∧
      (∀ i (h : i < outs.length) (h2 : i < p.tests.length) (got : Value),
        fn (p.tests.get ⟨i, h2⟩).args (p.tests.get ⟨i, h2⟩).kwargs = Except.ok got →
        ((outs.get ⟨i, h⟩).ok = true ↔ specMatches got (p.tests.get ⟨i, h2⟩).expected)) := by
  refine ⟨runTests fn 1 p.tests, ?_, runTests_length fn p.tests 1, ?_, ?_⟩
  · simp [_execute, hsafe, hexec, hfn, runTests_length]
  · intro i h h2
    rw [runTests_get fn p.tests 1 i h h2, Nat.add_comm 1 i]
    cases hc : fn (p.tests.get ⟨i, h2⟩).args (p.tests.get ⟨i, h2⟩).kwargs with
    | ok got =>
        simp only [List.get_eq_getElem] at hc
        simp [runTest, hc]
    | error e =>
        simp only [List.get_eq_getElem] at hc
        simp [runTest, hc]
  · intro i h h2 got hcall
    rw [runTests_get fn p.tests 1 i h h2]
    simp only [runTest, hcall]
    exact scoreOk_iff_specMatches got _

/-- C6: when the submitted function raises on some test, that fault is
recorded only in that test's outcome — ok false, got null, error the
"ERROR: kind: message" string — while the run still reports status ok with
one outcome per declared test, and every outcome (the faulting one
included) is exactly the outcome of running its own test alone, so the
tests are scored independently of each other. -/
theorem c6_fault_isolated (p : Problem) (sub : Submission) (mem : Nat)
    (elapsed : ℚ) (ns : String → Option PyFun) (fn : PyFun) (j : Nat)
    (e : PyExn)
    (hsafe : _ensure_safe sub.ast = Except.ok ())
    (hexec : sub.execNs = Except.ok ns)
    (hfn : ns p.function_name = some fn)
    (hj : j < p.tests.length)
    (hraise : fn (p.tests.get ⟨j, hj⟩).args (p.tests.get ⟨j, hj⟩).kwargs
        = Except.error e) :
    ∃ outs : List TestOutcome,
      (_execute p sub mem elapsed).puts
          = [okMsg outs elapsed ⟨p.tests.length, outs.countP fun o => o.ok⟩] ∧
      outs.length = p.tests.length ∧
      (∀ hj2 : j < outs.length,
        outs.get ⟨j, hj2⟩
          = ⟨j + 1, (p.tests.get ⟨j, hj⟩).args, (p.tests.get ⟨j, hj⟩).kwargs,
             (p.tests.get ⟨j, hj⟩).expected, false, Value.null,
             some ("ERROR: " ++ e.kind ++ ": " ++ e.msg)⟩) ∧
      (∀ i (h : i < outs.length) (h2 : i < p.tests.length),
        outs.get ⟨i, h⟩ = runTest fn (i + 1) (p.tests.get ⟨i, h2⟩)) := by
  refine ⟨runTests fn 1 p.tests, ?_, runTests_length fn p.tests 1, ?_, ?_⟩
  · simp [_execute, hsafe, hexec, hfn, runTests_length]
  · intro hj2
    rw [runTests_get fn p.tests 1 j hj2 hj, Nat.add_comm 1 j]
    simp only [runTest, hraise]
  · intro i h h2
    rw [runTests_get fn p.tests 1 i h h2, Nat.add_comm 1 i]

/-- C9: an expected value that is a list is always read as a collection of
acceptable alternatives, never as one literal value: the score is true iff
the returned value equals some element of the list; concretely, in the
two-sum scenario a submission returning the whole list `[[0,1],[1,0]]` —
a value equal to `expected` itself but to none of its elements — scores
false. -/
theorem c9_list_is_alternatives :
    (∀ (got : Value) (es : List Value),
      scoreOk got (Value.list es) = true ↔ ∃ e ∈ es, pyEq got e = true) ∧
    pyEq c9got (Value.list c9alts) = true ∧
    scoreOk c9got (Value.list c9alts) = false := by
  refine ⟨fun got es => ?_, by decide, by decide⟩
  simpa [specMatches] using scoreOk_iff_specMatches got (Value.list es)

/-- C10: every message the child puts with status error — vetting
rejection, missing function, or any other top-level fault — carries only
the status and an error string: its tests, elapsed and summary fields are
all absent. -/
theorem c10_error_result_bare (p : Problem) (sub : Submission) (mem : Nat)
    (elapsed : ℚ) (m : GradeMsg)
    (hmem : m ∈ (_execute p sub mem elapsed).puts)
    (hstatus : m.status = "error") :
    m.tests = none ∧ m.elapsed = none ∧ m.summary = none ∧
      ∃ s, m.error = some s := by
  cases hs : _ensure_safe sub.ast with
  | error msg =>
      rw [show (_execute p sub mem elapsed).puts = [errMsg msg] by
        simp [_execute, hs]] at hmem
      have hmm : m = errMsg msg := by simpa using hmem
      subst hmm
      exact ⟨rfl, rfl, rfl, msg, rfl⟩
  | ok u =>
      cases u
      cases he : sub.execNs with
      | error e =>
          rw [show (_execute p sub mem elapsed).puts
              = [errMsg ("ERROR: " ++ e.kind ++ ": " ++ e.msg)] by
            simp [_execute, hs, he]] at hmem
          have hmm : m = errMsg ("ERROR: " ++ e.kind ++ ": " ++ e.msg) := by
            simpa using hmem
          subst hmm
          exact ⟨rfl, rfl, rfl, _, rfl⟩
      | ok ns =>
          cases hf : ns p.function_name with
          | none =>
              rw [show (_execute p sub mem elapsed).puts
                  = [errMsg ("Function " ++ "'" ++ p.function_name ++ "'" ++ " is not defined")] by
                simp [_execute, hs, he, hf]] at hmem
              have hmm : m = errMsg ("Function " ++ "'" ++ p.function_name ++ "'" ++ " is not defined") := by
                simpa using hmem
              subst hmm
              exact ⟨rfl, rfl, rfl, _, rfl⟩
          | some fn =>
              rw [show (_execute p sub mem elapsed).puts
                  = [okMsg (runTests fn 1 p.tests) elapsed
                      ⟨(runTests fn 1 p.tests).length,
                       (runTests fn 1 p.tests).countP fun t => t.ok⟩] by
                simp [_execute, hs, he, hf]] at hmem
              have hmm : m = okMsg (runTests fn 1 p.tests) elapsed
                  ⟨(runTests fn 1 p.tests).length,
                   (runTests fn 1 p.tests).countP fun t => t.ok⟩ := by
                simpa using hmem
              subst hmm
              simp [okMsg] at hstatus

/-- C5 counterexample: the claim says no built-in able to resolve
attributes or perform output is bound, yet `getattr` (attribute
resolution) and `print` (output) are both in the `SAFE_BUILTINS` table the
namespace is created with. -/
theorem c5_counterexample :
    ("getattr" ∈ SAFE_BUILTINS ∧ "getattr" ∈ attributeResolvingBuiltins) ∧
    ("print" ∈ SAFE_BUILTINS ∧ "print" ∈ outputPerformingBuiltins) := by
  decide

/-- C5 amended: the execution namespace's builtin table is exactly
`SAFE_BUILTINS`; that table excludes `__import__`, `eval`, `exec` and
`open`, but it does bind the attribute-resolving builtins `getattr` and
`hasattr` and the output builtin `print`. -/
theorem c5_amended :
    executionBuiltins = SAFE_BUILTINS ∧
    "__import__" ∉ SAFE_BUILTINS ∧ "eval" ∉ SAFE_BUILTINS ∧
    "exec" ∉ SAFE_BUILTINS ∧ "open" ∉ SAFE_BUILTINS ∧
    "getattr" ∈ SAFE_BUILTINS ∧ "hasattr" ∈ SAFE_BUILTINS ∧
    "print" ∈ SAFE_BUILTINS :=
  ⟨rfl, by decide, by decide, by decide, by decide, by decide, by decide, by decide⟩

/-- The concrete fibonacci problem declares two tests. -/
theorem wProblem_two_tests : (0 : Nat) < wProblem.tests.length := Nat.succ_pos 1

/-- Witness for C1: the concrete correct fibonacci submission, graded. -/
theorem c1_ok_grading_witness :
    _ensure_safe wSubOk.ast = Except.ok () ∧
    wSubOk.execNs = Except.ok wNs ∧
    wNs wProblem.function_name = some wFn ∧
    ∃ outs : List TestOutcome,
      (_execute wProblem wSubOk 128 (3/10000)).puts
          = [okMsg outs (3/10000) ⟨wProblem.tests.length, outs.countP fun o => o.ok⟩] ∧
      outs.length = wProblem.tests.length ∧
      (∀ i (h : i < outs.length) (h2 : i < wProblem.tests.length),
        (outs.get ⟨i, h⟩).index = i + 1 ∧
        (outs.get ⟨i, h⟩).args = (wProblem.tests.get ⟨i, h2⟩).args ∧
        (outs.get ⟨i, h⟩).kwargs = (wProblem.tests.get ⟨i, h2⟩).kwargs ∧
        (outs.get ⟨i, h⟩).expected = (wProblem.tests.get ⟨i, h2⟩).expected) ∧
      (∀ i (h : i < outs.length) (h2 : i < wProblem.tests.length) (got : Value),
        wFn (wProblem.tests.get ⟨i, h2⟩).args (wProblem.tests.get ⟨i, h2⟩).kwargs
            = Except.ok got →
        ((outs.get ⟨i, h⟩).ok = true ↔
          specMatches got (wProblem.tests.get ⟨i, h2⟩).expected)) :=
  ⟨rfl, rfl, rfl, c1_ok_grading wProblem wSubOk 128 (3/10000) wNs wFn rfl rfl rfl⟩

/-- Witness for C2: a concrete submission with a top-level import. -/
theorem c2_import_rejected_witness :
    wSubImport.ast
        = Except.ok (Ast.node "Module" [Ast.importStmt, Ast.node "FunctionDef" []]) ∧
    SubNode Ast.importStmt (Ast.node "Module" [Ast.importStmt, Ast.node "FunctionDef" []]) ∧
    ∃ msg, securityMessage msg ∧
      _ensure_safe wSubImport.ast = Except.error msg ∧
      (_execute wProblem wSubImport 128 0).events = [] ∧
      (_execute wProblem wSubImport 128 0).puts = [errMsg msg] ∧
      (run_in_subprocess wProblem wSubImport 2 128 (ChildFate.completed 0)).1 = errMsg msg :=
  ⟨rfl, SubNode.nodeChild (List.Mem.head _) (SubNode.refl _),
   c2_import_rejected wProblem wSubImport 2 128 0
     (Ast.node "Module" [Ast.importStmt, Ast.node "FunctionDef" []]) rfl
     (Or.inl (SubNode.nodeChild (List.Mem.head _) (SubNode.refl _)))⟩

/-- Witness for C7: a concrete submission accessing `o.__class__`. -/
theorem c7_dunder_rejected_witness :
    wSubDunder.ast
        = Except.ok (Ast.node "Module"
            [Ast.node "Expr" [Ast.attribute (Ast.name "o") "__class__"]]) ∧
    startswithDunder "__class__" = true ∧
    SubNode (Ast.attribute (Ast.name "o") "__class__")
        (Ast.node "Module" [Ast.node "Expr" [Ast.attribute (Ast.name "o") "__class__"]]) ∧
    ∃ msg, securityMessage msg ∧
      _ensure_safe wSubDunder.ast = Except.error msg ∧
      (_execute wProblem wSubDunder 128 0).events = [] ∧
      (_execute wProblem wSubDunder 128 0).puts = [errMsg msg] ∧
      (run_in_subprocess wProblem wSubDunder 2 128 (ChildFate.completed 0)).1 = errMsg msg :=
  ⟨rfl, rfl,
   SubNode.nodeChild (List.Mem.head _) (SubNode.nodeChild (List.Mem.head _) (SubNode.refl _)),
   c7_dunder_rejected wProblem wSubDunder 2 128 0
     (Ast.node "Module" [Ast.node "Expr" [Ast.attribute (Ast.name "o") "__class__"]])
     (Ast.name "o") "__class__" rfl rfl
     (SubNode.nodeChild (List.Mem.head _) (SubNode.nodeChild (List.Mem.head _) (SubNode.refl _)))⟩

/-- Witness for C3: the supervisor at a concrete timed-out request, with a
half-written message sitting unread in the channel. -/
theorem c3_timeout_tle_witness :
    run_in_subprocess wProblem wSubOk 2 128 (ChildFate.timedOut [errMsg "half"])
        = (tleMsg, [SupAction.join 2, SupAction.terminate, SupAction.join (1/10)]) ∧
      tleMsg.status = "tle" ∧ tleMsg.error = some "Time Limit Exceeded" ∧
      SupAction.getNowait ∉ [SupAction.join 2, SupAction.terminate, SupAction.join (1/10)] :=
  c3_timeout_tle wProblem wSubOk 2 128 [errMsg "half"]

/-- Witness for C4: a concrete request whose child was killed by the OS. -/
theorem c4_terminal_status_witness :
    ((run_in_subprocess wProblem wSubOk 2 128 ChildFate.osKilled).1.status = "ok" ∨
     (run_in_subprocess wProblem wSubOk 2 128 ChildFate.osKilled).1.status = "error" ∨
     (run_in_subprocess wProblem wSubOk 2 128 ChildFate.osKilled).1.status = "tle") ∧
    ∀ elapsed : ℚ, ∃ m, (_execute wProblem wSubOk 128 elapsed).puts = [m] ∧
      (m.status = "ok" ∨ m.status = "error") :=
  c4_terminal_status wProblem wSubOk 2 128 ChildFate.osKilled

/-- Witness for C8: the supervisor at a concrete request with an empty
channel. -/
theorem c8_empty_channel_witness :
    run_in_subprocess wProblem wSubOk 2 128 ChildFate.osKilled
        = (errMsg "No result returned", [SupAction.join 2, SupAction.getNowait]) ∧
      (errMsg "No result returned").status = "error" :=
  c8_empty_channel wProblem wSubOk 2 128

/-- Witness for C6: a concrete submission whose `fib` raises
`ValueError: boom` on its first test. -/
theorem c6_fault_isolated_witness :
    _ensure_safe wSubRaise.ast = Except.ok () ∧
    wSubRaise.execNs = Except.ok wNsRaise ∧
    wNsRaise wProblem.function_name = some wFnRaise ∧
    wFnRaise (wProblem.tests.get ⟨0, wProblem_two_tests⟩).args
        (wProblem.tests.get ⟨0, wProblem_two_tests⟩).kwargs
        = Except.error ⟨"ValueError", "boom"⟩ ∧
    ∃ outs : List TestOutcome,
      (_execute wProblem wSubRaise 128 0).puts
          = [okMsg outs 0 ⟨wProblem.tests.length, outs.countP fun o => o.ok⟩] ∧
      outs.length = wProblem.tests.length ∧
      (∀ hj2 : 0 < outs.length,
        outs.get ⟨0, hj2⟩
          = ⟨0 + 1, (wProblem.tests.get ⟨0, wProblem_two_tests⟩).args,
             (wProblem.tests.get ⟨0, wProblem_two_tests⟩).kwargs,
             (wProblem.tests.get ⟨0, wProblem_two_tests⟩).expected, false, Value.null,
             some ("ERROR: " ++ "ValueError" ++ ": " ++ "boom")⟩) ∧
      (∀ i (h : i < outs.length) (h2 : i < wProblem.tests.length),
        outs.get ⟨i, h⟩ = runTest wFnRaise (i + 1) (wProblem.tests.get ⟨i, h2⟩)) :=
  ⟨rfl, rfl, rfl, rfl,
   c6_fault_isolated wProblem wSubRaise 128 0 wNsRaise wFnRaise 0
     ⟨"ValueError", "boom"⟩ rfl rfl rfl wProblem_two_tests rfl⟩

/-- Witness for C10: the child message of a concrete rejected submission. -/
theorem c10_error_result_bare_witness :
    errMsg "Import statements are not allowed" ∈ (_execute wProblem wSubImport 128 0).puts ∧
    (errMsg "Import statements are not allowed").status = "error" ∧
    ((errMsg "Import statements are not allowed").tests = none ∧
     (errMsg "Import statements are not allowed").elapsed = none ∧
     (errMsg "Import statements are not allowed").summary = none ∧
     ∃ s, (errMsg "Import statements are not allowed").error = some s) :=
  ⟨List.Mem.head _, rfl,
   c10_error_result_bare wProblem wSubImport 128 0
     (errMsg "Import statements are not allowed") (List.Mem.head _) rfl⟩
